import Mathlib

/-!
Verification of the ISS-P2 serial-client repository (protocol.py,
transport.py, cli.py) against its natural-language specification.

The Python sources are shallowly embedded: pure functions become Lean
functions on `String` / `List Nat` (bytes are `Nat` with explicit
truncation), the serial channel is a list of read events plus a fuel
counter standing for the polling deadline, and fallible operations
return `Except`.
-/

namespace ISSP2

/-- Python `str.isspace` / the character class removed by `str.strip()`:
ASCII whitespace 0x09–0x0D, the separators 0x1C–0x1F, the space 0x20, and
the Unicode whitespace code points. -/
def isPySpace (c : Char) : Bool :=
  let n := c.toNat
  (9 ≤ n && n ≤ 13) || (28 ≤ n && n ≤ 31) || n == 32 || n == 133 || n == 160 ||
    n == 5760 || (8192 ≤ n && n ≤ 8202) || n == 8232 || n == 8233 ||
    n == 8239 || n == 8287 || n == 12288

/-- Strip, on lists: drop the leading run satisfying `p`, then the
trailing run satisfying `p`. -/
def stripList (p : α → Bool) (l : List α) : List α :=
  ((l.dropWhile p).reverse.dropWhile p).reverse

/-- Python `s.strip()`: removes leading and trailing whitespace. -/
def pyStrip (s : String) : String :=
  ⟨stripList isPySpace s.data⟩

/-- Python `s.encode("ascii", "ignore")`: code points below 128 become
their byte value, every other character is silently dropped. -/
def asciiEncode (s : String) : List Nat :=
  (s.data.filter (fun c => c.toNat < 128)).map Char.toNat

/-- `protocol.compute_crc`: `sum(payload.encode("ascii", "ignore")) & 0xFF`. -/
def compute_crc (payload : String) : Nat :=
  (asciiEncode payload).sum &&& 0xFF

/-- One uppercase hexadecimal digit, as produced by Python's `X` format. -/
def hexDigit (n : Nat) : Char :=
  if n < 10 then Char.ofNat (48 + n) else Char.ofNat (55 + n)

/-- Python `f"{n:02X}"` for a value in 0..255: two uppercase hex digits. -/
def hexByte (n : Nat) : String :=
  ⟨[hexDigit (n / 16 % 16), hexDigit (n % 16)]⟩

/-- `protocol.add_crc`: strip the payload, compute its CRC, and return the
frame `f"{p}|{crc:02X}"`.  (`DEBUG` is `False`, so the debug print is dead
code and the function is pure.) -/
def add_crc (payload : String) : String :=
  let p := pyStrip payload
  let crc := compute_crc p
  p ++ "|" ++ hexByte crc

/-- `protocol.normalize`: currently just `s.strip()`. -/
def normalize (s : String) : String :=
  pyStrip s

/- Spec-side helper definitions, used only to state properties (never as
the embedding of source code). -/

/-- A character that is an uppercase hexadecimal digit. -/
def isUpperHexDigit (c : Char) : Bool :=
  (48 ≤ c.toNat && c.toNat ≤ 57) || (65 ≤ c.toNat && c.toNat ≤ 70)

/-- Value of one uppercase hexadecimal digit. -/
def hexCharVal (c : Char) : Nat :=
  if c.toNat ≤ 57 then c.toNat - 48 else c.toNat - 55

/-- Value denoted by a two-digit hexadecimal rendering. -/
def decodeHex2 (s : String) : Nat :=
  match s.data with
  | [a, b] => hexCharVal a * 16 + hexCharVal b
  | _ => 0

/-- The ASCII-encodable characters of a string, in order. -/
def asciiOnly (s : String) : String :=
  ⟨s.data.filter (fun c => c.toNat < 128)⟩

/- Basic lemmas about the protocol embedding. -/

lemma compute_crc_eq_mod (s : String) :
    compute_crc s = (asciiEncode s).sum % 256 := by
  have h := Nat.and_pow_two_sub_one_eq_mod (asciiEncode s).sum 8
  simpa [compute_crc] using h

lemma compute_crc_lt (s : String) : compute_crc s < 256 := by
  rw [compute_crc_eq_mod]
  exact Nat.mod_lt _ (by norm_num)

set_option maxRecDepth 8192 in
lemma hexByte_spec : ∀ n : Nat, n < 256 →
    (hexByte n).length = 2 ∧ (hexByte n).data.all isUpperHexDigit = true ∧
      decodeHex2 (hexByte n) = n := by
  decide

/- transport.py embedding. -/

/-- Error raised by I/O methods of a transport that is not open
(`raise RuntimeError("not open")`). -/
inductive TransportError where
  | notOpen : TransportError
deriving DecidableEq, Repr

/-- The `SerialTransport` dataclass.  `ser` models `_ser` (`some ()` when a
live `serial.Serial` handle is held, `none` when it is `None`); `lastCmd`
models the `_last_cmd` attribute set by the REPL (`none` when the attribute
has never been assigned, so that `hasattr` is false). -/
structure SerialTransport where
  port : String
  baud : Nat
  timeout : Rat
  ser : Option Unit
  lastCmd : Option String
deriving DecidableEq, Repr

/-- The dataclass constructor with its defaults:
`SerialTransport(port, baud=9600, timeout=1.0, _ser=None)`, no `_last_cmd`
attribute yet. -/
def mkSerialTransport (port : String) : SerialTransport :=
  ⟨port, 9600, 1, none, none⟩

/-- `SerialTransport.close`: `if self._ser:` close the handle and set
`_ser = None`; on an unopened/closed transport the body is skipped.  The
method never raises. -/
def close (t : SerialTransport) : SerialTransport :=
  match t.ser with
  | some _ => ⟨t.port, t.baud, t.timeout, none, t.lastCmd⟩
  | none => t

/-- Python `line.rstrip("\r\n")`: remove every trailing CR or LF. -/
def rstripCRLF (s : String) : String :=
  ⟨(s.data.reverse.dropWhile (fun c => c == '\r' || c == '\n')).reverse⟩

/-- `SerialTransport.write_line`: fails with `notOpen` when `_ser` is
`None`; otherwise the bytes handed to the serial handle are
`(line.rstrip("\r\n") + "\n").encode("ascii", errors="ignore")`. -/
def write_line (t : SerialTransport) (line : String) :
    Except TransportError (List Nat) :=
  match t.ser with
  | none => Except.error TransportError.notOpen
  | some _ => Except.ok (asciiEncode (rstripCRLF line ++ "\n"))

/-- One `self._ser.read(1)` outcome: either no byte was available before
the inter-byte timeout (`b""`), or one byte arrived. -/
inductive ReadEvent where
  | noByte : ReadEvent
  | byte : Nat → ReadEvent
deriving DecidableEq, Repr

/-- Python `s.startswith(pre)`, expressed on the character lists. -/
def pyStartsWith (s pre : String) : Bool :=
  pre.data.isPrefixOf s.data

/-- The truthy condition
`hasattr(self, "_last_cmd") and self._last_cmd and self._last_cmd.startswith("START")`:
`none` models a missing `_last_cmd` attribute, and an empty string is
falsy. -/
def lastCmdIsStart : Option String → Bool
  | none => false
  | some c => !c.data.isEmpty && pyStartsWith c "START"

/-- The deadline-duration selection at the top of `read_line`: an explicit
`timeout` argument is used as given; with `timeout=None` the last `START`
command selects `17.0`, and otherwise `self.timeout or 1.0` is used
(`or` falls back to `1.0` exactly when `self.timeout` is falsy). -/
def selectTimeout (t : SerialTransport) (timeout : Option Rat) : Rat :=
  match timeout with
  | some v => v
  | none =>
    if lastCmdIsStart t.lastCmd then 17
    else if t.timeout = 0 then 1 else t.timeout

/-- `if buf.endswith(b"\r"): buf.pop()` before decoding the line. -/
def stripTrailCR (buf : List Nat) : List Nat :=
  if buf.getLast? = some 13 then buf.dropLast else buf

/-- `buf.decode("ascii", errors="ignore")`: bytes ≥ 128 are dropped. -/
def asciiDecode (bs : List Nat) : String :=
  ⟨(bs.filter (fun b => b < 128)).map Char.ofNat⟩

/-- The polling loop of `read_line`.  `fuel` counts the loop iterations
that still fit before the deadline `end`: when it reaches 0 the deadline
has passed and the call returns `none`, discarding `buf`.  Each iteration
consumes one read event (an empty event list stands for a channel that
stays silent, i.e. every further read yields no byte).  On a `\n` byte the
accumulated buffer, with a single trailing `\r` removed, is decoded and
returned together with the unconsumed events. -/
def readLineAux : Nat → List Nat → List ReadEvent → Option String × List ReadEvent
  | 0, _, evs => (none, evs)
  | Nat.succ fuel, buf, [] => readLineAux fuel buf []
  | Nat.succ fuel, buf, ReadEvent.noByte :: rest => readLineAux fuel buf rest
  | Nat.succ fuel, buf, ReadEvent.byte b :: rest =>
    if b = 10 then (some (asciiDecode (stripTrailCR buf)), rest)
    else readLineAux fuel (buf ++ [b]) rest

/-- One `read_line` call on the byte channel: the local buffer always
starts empty. -/
def read_line_model (fuel : Nat) (evs : List ReadEvent) :
    Option String × List ReadEvent :=
  readLineAux fuel [] evs

/-- `SerialTransport.read_line`: fails with `notOpen` when `_ser` is
`None`; otherwise selects the deadline duration and runs the polling loop.
The result carries the selected duration, the line read (or `none` on
timeout) and the events left unconsumed on the channel. -/
def read_line (t : SerialTransport) (timeout : Option Rat) (fuel : Nat)
    (evs : List ReadEvent) :
    Except TransportError (Rat × Option String × List ReadEvent) :=
  match t.ser with
  | none => Except.error TransportError.notOpen
  | some _ => Except.ok (selectTimeout t timeout, read_line_model fuel evs)

/- cli.py embedding (the send path of `repl`). -/

/-- Python `c in s` for a single character `c` (the membership test
`"|" in payload`). -/
def containsChar (s : String) (c : Char) : Bool :=
  s.data.contains c

/-- The payload `repl` hands to `write_line` for a non-local command:
`cmd = raw.strip()`, `payload = normalize(cmd)`, and `add_crc` is applied
only when the frame separator `"|"` is absent from the payload. -/
def replSendPayload (raw : String) : String :=
  let cmd := pyStrip raw
  let payload := normalize cmd
  if containsChar payload '|' then payload else add_crc payload

/-- Whether a line-feed byte ever arrives on the channel. -/
def hasLF : List ReadEvent → Bool
  | [] => false
  | ReadEvent.noByte :: rest => hasLF rest
  | ReadEvent.byte b :: rest => b == 10 || hasLF rest

/- Helper lemmas. -/

lemma dropWhile_idem (p : α → Bool) (l : List α) :
    (l.dropWhile p).dropWhile p = l.dropWhile p := by
  induction l with
  | nil => rfl
  | cons h t ih =>
    by_cases hp : p h
    · simp [List.dropWhile_cons, hp, ih]
    · simp [List.dropWhile_cons, hp]

lemma dropWhile_head_false (p : α → Bool) (l : List α) (a : α) (t : List α)
    (h : l.dropWhile p = a :: t) : p a = false := by
  induction l with
  | nil => simp [List.dropWhile] at h
  | cons x xs ih =>
    rw [List.dropWhile_cons] at h
    by_cases hp : p x
    · rw [if_pos hp] at h
      exact ih h
    · rw [if_neg hp] at h
      cases h
      simpa using hp

lemma stripList_idem (p : α → Bool) (l : List α) :
    stripList p (stripList p l) = stripList p l := by
  unfold stripList
  have hA : (((l.dropWhile p).reverse.dropWhile p).reverse).dropWhile p =
      ((l.dropWhile p).reverse.dropWhile p).reverse := by
    cases hrr : ((l.dropWhile p).reverse.dropWhile p).reverse with
    | nil => simp
    | cons a t =>
      have h1 : (l.dropWhile p).reverse.takeWhile p ++
          (l.dropWhile p).reverse.dropWhile p = (l.dropWhile p).reverse :=
        List.takeWhile_append_dropWhile p (l.dropWhile p).reverse
      have h2 : ((l.dropWhile p).reverse.dropWhile p).reverse ++
          ((l.dropWhile p).reverse.takeWhile p).reverse = l.dropWhile p := by
        rw [← List.reverse_append, h1, List.reverse_reverse]
      rw [hrr] at h2
      have hpa : p a = false :=
        dropWhile_head_false p l a
          (t ++ ((l.dropWhile p).reverse.takeWhile p).reverse) h2.symm
      rw [List.dropWhile_cons, if_neg (by simp [hpa])]
  rw [hA, List.reverse_reverse, dropWhile_idem]

lemma pyStrip_idem (s : String) : pyStrip (pyStrip s) = pyStrip s := by
  show String.mk (stripList isPySpace (stripList isPySpace s.data)) = _
  rw [stripList_idem]
  rfl

lemma asciiEncode_append (a b : String) :
    asciiEncode (a ++ b) = asciiEncode a ++ asciiEncode b := by
  simp [asciiEncode, String.data_append, List.filter_append]

lemma asciiEncode_lt_128 (s : String) : ∀ b ∈ asciiEncode s, b < 128 := by
  intro b hb
  simp only [asciiEncode, List.mem_map, List.mem_filter] at hb
  obtain ⟨c, ⟨hc1, hc2⟩, rfl⟩ := hb
  simpa using hc2

lemma readLineAux_none_of_no_lf (fuel : Nat) :
    ∀ buf evs, hasLF evs = false → (readLineAux fuel buf evs).1 = none := by
  induction fuel with
  | zero => intro buf evs h; rfl
  | succ f ih =>
    intro buf evs h
    cases evs with
    | nil => exact ih buf [] h
    | cons e rest =>
      cases e with
      | noByte => exact ih buf rest (by simpa [hasLF] using h)
      | byte b =>
        have hb : (b == 10) = false ∧ hasLF rest = false := by
          simpa [hasLF, Bool.or_eq_false_iff] using h
        rw [readLineAux, if_neg (by simpa using hb.1)]
        exact ih (buf ++ [b]) rest hb.2

lemma asciiEncode_asciiOnly (s : String) :
    asciiEncode (asciiOnly s) = asciiEncode s := by
  simp only [asciiEncode, asciiOnly]
  rw [List.filter_filter]
  simp

/- Claim theorems. -/

/-- C1: for every string `s`, `add_crc s` returns `strip s` followed by the
separator `"|"` and the checksum of `strip s` rendered as exactly two
uppercase hexadecimal digits, where the checksum is the sum of the ASCII
bytes of `strip s` reduced mod 256.  The embedding is a total pure
function, matching the spec's "no side effects, no I/O". -/
theorem add_crc_builds_frame (s : String) :
    add_crc s = pyStrip s ++ "|" ++ hexByte (compute_crc (pyStrip s)) ∧
    compute_crc (pyStrip s) = (asciiEncode (pyStrip s)).sum % 256 ∧
    (hexByte (compute_crc (pyStrip s))).length = 2 ∧
    (hexByte (compute_crc (pyStrip s))).data.all isUpperHexDigit = true ∧
    decodeHex2 (hexByte (compute_crc (pyStrip s))) = compute_crc (pyStrip s) := by
  refine ⟨rfl, compute_crc_eq_mod _, ?_, ?_, ?_⟩
  · exact (hexByte_spec _ (compute_crc_lt _)).1
  · exact (hexByte_spec _ (compute_crc_lt _)).2.1
  · exact (hexByte_spec _ (compute_crc_lt _)).2.2

/-- C2 counterexample: `compute_crc` does not strip its argument, so on
`" PING "` its value differs from its value on the stripped string: the
claim's `computeChecksum(s) = computeChecksum(trim(s))` is false. -/
theorem compute_crc_trim_dependence_false :
    compute_crc " PING " ≠ compute_crc (pyStrip " PING ") := by decide

/-- C2 (amended): `compute_crc s` lies in `[0, 255]` and depends only on
the ASCII-encodable bytes of `s` itself (non-ASCII characters are dropped);
determinism is inherent in the pure embedding.  Stripping is performed by
the caller `add_crc`, not by `compute_crc`. -/
theorem compute_crc_range_and_ascii_dependence (s : String) :
    compute_crc s ≤ 255 ∧ compute_crc s = compute_crc (asciiOnly s) := by
  refine ⟨Nat.lt_succ_iff.mp (compute_crc_lt s), ?_⟩
  unfold compute_crc
  rw [asciiEncode_asciiOnly]

/-- C3 counterexample: `add_crc "PING"` is not `"PING|44"`. -/
theorem add_crc_ping_not_44 : add_crc "PING" ≠ "PING|44" := by decide

/-- C3 (amended): the bytes `[0x50, 0x49, 0x4E, 0x47]` of `"PING"` sum to
302, and `302 mod 256 = 46 = 0x2E`, so `add_crc "PING" = "PING|2E"`. -/
theorem add_crc_ping_frame :
    add_crc "PING" = "PING|2E" ∧ (asciiEncode "PING").sum = 302 ∧
      302 % 256 = 46 ∧ hexByte 46 = "2E" := by
  refine ⟨by decide, by decide, by decide, by decide⟩

/-- C4: a command whose normalized form already contains the frame
separator `"|"` is passed to the transport unchanged (no second checksum),
and framing via `add_crc` happens exactly when `"|"` is absent. -/
theorem repl_frame_guard (raw : String) :
    (containsChar (pyStrip raw) '|' = true →
      replSendPayload raw = pyStrip raw) ∧
    (containsChar (pyStrip raw) '|' = false →
      replSendPayload raw = add_crc (pyStrip raw)) := by
  constructor
  · intro h
    simp only [replSendPayload, normalize, pyStrip_idem]
    rw [if_pos h]
  · intro h
    simp only [replSendPayload, normalize, pyStrip_idem]
    rw [if_neg (by simp [h])]

/-- C4 witness: `"FOO|AB"` goes through unchanged, `"PING"` gets framed. -/
theorem repl_frame_guard_witness :
    replSendPayload "FOO|AB" = "FOO|AB" ∧ replSendPayload "PING" = "PING|2E" := by
  constructor
  · have h := (repl_frame_guard "FOO|AB").1 (by decide)
    rw [h]
    decide
  · have h := (repl_frame_guard "PING").2 (by decide)
    rw [h]
    decide

/-- C5 counterexample: with a base timeout of `0` (a falsy float) and no
command sent, a default-policy `read_line` uses the deadline `1.0` coming
from `self.timeout or 1.0`, not the transport's base timeout `0`. -/
theorem read_line_default_base_timeout_false :
    read_line ⟨"COM16", 9600, 0, some (), none⟩ none 0 [] =
      Except.ok (1, none, []) ∧
    (1 : Rat) ≠ (⟨"COM16", 9600, 0, some (), none⟩ : SerialTransport).timeout :=
  ⟨rfl, by norm_num⟩

/-- C5 (amended): on an open transport, a default-policy `read_line` call
selects the extended 17-second deadline exactly when the most recently
sent command is nonempty and begins with `"START"`; otherwise it uses the
transport's base timeout when that is nonzero, falling back to 1 second
when the base timeout is falsy (`self.timeout or 1.0`). -/
theorem read_line_default_timeout_selection (t : SerialTransport) (fuel : Nat)
    (evs : List ReadEvent) (h : t.ser = some ()) :
    read_line t none fuel evs =
      Except.ok
        ((if lastCmdIsStart t.lastCmd then (17 : Rat)
          else if t.timeout = 0 then 1 else t.timeout),
          read_line_model fuel evs) ∧
    (∀ c, t.lastCmd = some c → pyStartsWith c "START" = true → c.data ≠ [] →
      read_line t none fuel evs = Except.ok (17, read_line_model fuel evs)) ∧
    (t.lastCmd = none → t.timeout ≠ 0 →
      read_line t none fuel evs = Except.ok (t.timeout, read_line_model fuel evs)) := by
  obtain ⟨port, baud, tmo, ser, lastCmd⟩ := t
  simp only at h
  subst h
  refine ⟨?_, ?_, ?_⟩
  · simp [read_line, selectTimeout]
  · intro c hc hstart hne
    simp only at hc
    subst hc
    simp [read_line, selectTimeout, lastCmdIsStart, hstart, hne]
  · intro hnone hto
    simp only at hnone hto
    subst hnone
    simp [read_line, selectTimeout, lastCmdIsStart, hto]

/-- C5 witness: after `"START|53"` the selected deadline is 17 seconds;
with no command sent and base timeout 1 it is 1 second. -/
theorem read_line_default_timeout_selection_witness :
    read_line ⟨"COM16", 9600, 1, some (), some "START|53"⟩ none 3 [] =
      Except.ok (17, none, []) ∧
    read_line ⟨"COM16", 9600, 1, some (), none⟩ none 3 [] =
      Except.ok (1, none, []) := by
  constructor
  · have h := (read_line_default_timeout_selection
      ⟨"COM16", 9600, 1, some (), some "START|53"⟩ 3 [] rfl).2.1
      "START|53" rfl (by decide) (by decide)
    rw [h]
    rfl
  · have h := (read_line_default_timeout_selection
      ⟨"COM16", 9600, 1, some (), none⟩ 3 [] rfl).2.2 rfl (by norm_num)
    rw [h]
    rfl

/-- C6: if the deadline elapses before a line feed is seen, `read_line`
reports nothing-read (`none`) rather than an error; a zero-byte read only
consumes time and never ends the loop by itself; and bytes accumulated by
a timed-out call are discarded — a subsequent call starts from an empty
buffer, so `"AB"` buffered before a timeout never reappears in front of
the next line `"CD"`. -/
theorem read_line_timeout_discards :
    (∀ fuel evs, hasLF evs = false → (read_line_model fuel evs).1 = none) ∧
    (∀ fuel buf evs,
      readLineAux (fuel + 1) buf (ReadEvent.noByte :: evs) =
        readLineAux fuel buf evs) ∧
    (read_line_model 2 [ReadEvent.byte 65, ReadEvent.byte 66, ReadEvent.byte 67,
        ReadEvent.byte 68, ReadEvent.byte 10] =
      (none, [ReadEvent.byte 67, ReadEvent.byte 68, ReadEvent.byte 10]) ∧
    read_line_model 9 [ReadEvent.byte 67, ReadEvent.byte 68, ReadEvent.byte 10] =
      (some "CD", []) ∧
    (some "CD" : Option String) ≠ some "ABCD") := by
  refine ⟨?_, ?_, by decide, by decide, by decide⟩
  · intro fuel evs h
    exact readLineAux_none_of_no_lf fuel [] evs h
  · intro fuel buf evs
    rfl

/-- C6 witness: a channel with one silent poll and a lone `"A"` byte and
no line feed times out with `none`. -/
theorem read_line_timeout_discards_witness :
    (read_line_model 3 [ReadEvent.noByte, ReadEvent.byte 65]).1 = none :=
  read_line_timeout_discards.1 3 [ReadEvent.noByte, ReadEvent.byte 65] (by decide)

/-- C7: a channel delivering the bytes `"OK\r\n"` before the deadline makes
`read_line` return exactly `"OK"`: the line feed is consumed and the single
carriage return before it is stripped. -/
theorem read_line_crlf_normalization :
    read_line_model 8 [ReadEvent.byte 79, ReadEvent.byte 75, ReadEvent.byte 13,
      ReadEvent.byte 10] = (some "OK", []) := by decide

/-- C8: `close` is idempotent — a second `close` on an already-closed
transport is a no-op (and `close` is total, so it never raises) — and after
`close` both `write_line` and `read_line` fail fast with `notOpen`. -/
theorem close_idempotent_io_fails (t : SerialTransport) (line : String)
    (timeout : Option Rat) (fuel : Nat) (evs : List ReadEvent) :
    close (close t) = close t ∧ (close t).ser = none ∧
    write_line (close t) line = Except.error TransportError.notOpen ∧
    read_line (close t) timeout fuel evs = Except.error TransportError.notOpen := by
  obtain ⟨port, baud, tmo, ser, lastCmd⟩ := t
  cases ser <;> exact ⟨rfl, rfl, rfl, rfl⟩

/-- C9: on an open transport `write_line line` writes exactly the ASCII
encoding of `line` with all trailing CR/LF removed followed by one line
feed byte (non-ASCII characters are dropped, never an error — every byte
written is below 128); on a transport that is not open it fails with
`notOpen`. -/
theorem write_line_frames_bytes (t : SerialTransport) (line : String) :
    (t.ser ≠ none →
      write_line t line = Except.ok (asciiEncode (rstripCRLF line) ++ [10]) ∧
      ∀ b ∈ asciiEncode (rstripCRLF line), b < 128) ∧
    (t.ser = none → write_line t line = Except.error TransportError.notOpen) := by
  obtain ⟨port, baud, tmo, ser, lastCmd⟩ := t
  constructor
  · intro h
    cases ser with
    | none => exact absurd rfl h
    | some u =>
      refine ⟨?_, asciiEncode_lt_128 _⟩
      show Except.ok (asciiEncode (rstripCRLF line ++ "\n")) = _
      rw [asciiEncode_append]
      rfl
  · intro h
    simp only at h
    subst h
    rfl

/-- C9 witness: `"TEMP?\r\n"` is written as the bytes of `"TEMP?"` plus one
line feed, and writing on a never-opened transport fails with `notOpen`. -/
theorem write_line_frames_bytes_witness :
    write_line ⟨"COM16", 9600, 1, some (), none⟩ "TEMP?\r\n" =
      Except.ok [84, 69, 77, 80, 63, 10] ∧
    write_line (mkSerialTransport "COM16") "TEMP?" =
      Except.error TransportError.notOpen := by
  constructor
  · have h := (write_line_frames_bytes ⟨"COM16", 9600, 1, some (), none⟩
      "TEMP?\r\n").1 (by simp)
    rw [h.1]
    rfl
  · exact (write_line_frames_bytes (mkSerialTransport "COM16") "TEMP?").2 rfl

/-- C10: `close` on a transport that was never opened (`_ser` still `None`)
is a no-op that returns normally, and the transport stays not-open, so
`write_line` and `read_line` still fail with the not-open error. -/
theorem close_unopened_noop (port : String) (line : String)
    (timeout : Option Rat) (fuel : Nat) (evs : List ReadEvent) :
    close (mkSerialTransport port) = mkSerialTransport port ∧
    (mkSerialTransport port).ser = none ∧
    write_line (close (mkSerialTransport port)) line =
      Except.error TransportError.notOpen ∧
    read_line (close (mkSerialTransport port)) timeout fuel evs =
      Except.error TransportError.notOpen :=
  ⟨rfl, rfl, rfl, rfl⟩

end ISSP2
